import Mathlib

/-
Verification of the deep-research agent workflow (main.py): the AgentState record,
the planner, researcher and writer nodes, the loop controller (manager_logic), and
the compiled graph with its conditional researcher self-loop.

String processing from the Python source is embedded over the character list of a
Lean String: py_strip embeds str.strip(), py_split_nl embeds str.split on the
newline character, py_take embeds slicing text[:n], and py_join embeds sep.join.
-/

set_option maxHeartbeats 1000000

namespace ResearchAgent

/-- Whitespace characters stripped by Python str.strip(). -/
def py_is_space (c : Char) : Bool :=
  c = ' ' || c = '\t' || c = '\n' || c = '\r' || c = '\x0b' || c = '\x0c'

/-- Embedding of Python str.strip(): drop leading and trailing whitespace. -/
def py_strip (s : String) : String :=
  String.mk (((s.data.dropWhile py_is_space).reverse.dropWhile py_is_space).reverse)

/-- Helper for py_split_nl, accumulating the current field in reverse. -/
def split_nl_aux : List Char → List Char → List String
  | [], acc => [String.mk acc.reverse]
  | c :: rest, acc =>
    if c = '\n' then String.mk acc.reverse :: split_nl_aux rest []
    else split_nl_aux rest (c :: acc)

/-- Embedding of Python str.split on the newline separator. -/
def py_split_nl (s : String) : List String := split_nl_aux s.data []

/-- Embedding of Python slicing text[:n], counted in characters. -/
def py_take (s : String) (n : Nat) : String := String.mk (s.data.take n)

/-- Embedding of Python sep.join(xs). -/
def py_join (sep : String) : List String → String
  | [] => ""
  | [x] => x
  | x :: y :: rest => x ++ sep ++ py_join sep (y :: rest)

/-- The ASCII apostrophe, kept out of string literals as a single character. -/
def sq : String := Char.toString (Char.ofNat 39)

/-- The workflow state threaded through the graph (the AgentState TypedDict of
main.py). The summaries channel carries an append reducer (operator.add), which
the node embeddings below apply explicitly. -/
structure AgentState where
  topic : String
  plan : List String
  current_query_index : Nat
  summaries : List String
  final_report : String
deriving DecidableEq

/-- One search hit from the web search client (the href and title keys that
research_node reads from each DuckDuckGo result). -/
structure SearchResult where
  href : String
  title : String
deriving DecidableEq

/-- External world seen by one researcher invocation: the search client (ddgs.text
with its max_results argument; none models a raised exception), the two trafilatura
stages (none models a raised exception or a None return), and the chat model. -/
structure ResearchEnv where
  search : String → Nat → Option (List SearchResult)
  fetch : String → Option String
  extract : String → Option String
  llm : String → String

/-- Per-URL scraping in research_node: fetch_url, truthiness check on the result,
extract, truthiness check on the text. Any failure yields none and that one result
is skipped. -/
def scrape_one (renv : ResearchEnv) (url : String) : Option String :=
  match renv.fetch url with
  | none => none
  | some downloaded =>
    if downloaded = "" then none
    else
      match renv.extract downloaded with
      | none => none
      | some text => if text = "" then none else some text

/-- Step 1 of research_node: query the search client for up to 3 results; a raised
exception is caught and leaves the result list empty. -/
def search_results (renv : ResearchEnv) (query : String) : List SearchResult :=
  (renv.search query 3).getD []

/-- One scraped document as formatted by research_node, the extracted text truncated
to 8000 characters to avoid context overflow. -/
def source_entry (url text : String) : String :=
  "SOURCE: " ++ url ++ "\nCONTENT:\n" ++ py_take text 8000

/-- Step 2 of research_node: scrape each search result in order; failed results are
skipped and contribute nothing. -/
def scraped_texts (renv : ResearchEnv) (query : String) : List String :=
  (search_results renv query).filterMap
    (fun r => (scrape_one renv r.href).map (fun text => source_entry r.href text))

/-- Step 3 of research_node: the concatenated summarization input. -/
def combined_text (renv : ResearchEnv) (query : String) : String :=
  py_join ("\n\n") (scraped_texts renv query)

/-- The summarization prompt literal of research_node; sq is the apostrophe. -/
def summary_prompt (query combined : String) : String :=
  "You are a research assistant. Analyze the following scraped text for the query: "
    ++ sq ++ query ++ sq
    ++ ". Provide a concise, fact-heavy summary of the key information found. "
    ++ "Ignore irrelevant navigation or boilerplate text.\n\n" ++ combined

/-- The deterministic summary used when nothing was scraped for the query. -/
def placeholder_summary (query : String) : String :=
  "No detailed information could be scraped for the query: " ++ query

/-- Step 4 of research_node, instrumented with whether the chat model was invoked:
summarize with the model when the combined text is non-empty (truthy), otherwise
produce the deterministic placeholder without any model call. -/
def research_summary_call (renv : ResearchEnv) (query : String) : String × Bool :=
  if combined_text renv query ≠ "" then
    (renv.llm (summary_prompt query (combined_text renv query)), true)
  else
    (placeholder_summary query, false)

/-- The summary one researcher invocation appends for the given query. -/
def research_summary (renv : ResearchEnv) (query : String) : String :=
  (research_summary_call renv query).1

/-- Whether the researcher invoked the chat model for the given query. -/
def llm_called (renv : ResearchEnv) (query : String) : Bool :=
  (research_summary_call renv query).2

/-- The researcher node: look up plan[current_query_index] (none models the
IndexError a run would raise on an out-of-range index), then return the state
update, with the summaries append reducer applied and the cursor advanced by 1. -/
def research_node (renv : ResearchEnv) (state : AgentState) : Option AgentState :=
  match state.plan[state.current_query_index]? with
  | none => none
  | some query =>
    some { state with
      summaries := state.summaries ++ [research_summary renv query],
      current_query_index := state.current_query_index + 1 }

/-- Plan parsing in planner_node: strip the response, split it on newlines, keep the
stripped non-blank lines, and take the first 3. -/
def parse_plan (content : String) : List String :=
  (((py_split_nl (py_strip content)).filter
    (fun line => py_strip line ≠ "")).map py_strip).take 3

/-- The planner node, applied to the raw model response text. The plan and
current_query_index channels are overwritten; summaries is an append-reduced
channel (operator.add), so the empty list the node returns appends nothing and the
channel keeps its prior contents. -/
def planner_node (content : String) (state : AgentState) : AgentState :=
  { state with
    plan := parse_plan content,
    current_query_index := 0,
    summaries := state.summaries ++ [] }

/-- The writer prompt literal of writer_node; sq is the apostrophe. -/
def writer_prompt (topic : String) (summaries : List String) : String :=
  "You are a professional technical writer. The user asked for a report on: "
    ++ sq ++ topic ++ sq ++ ".\n"
    ++ "Below are the summaries from the research phase:\n\n"
    ++ py_join ("\n\n---\n\n") summaries
    ++ "\n\nWrite a comprehensive, well-structured Markdown report based ONLY on the above findings. "
    ++ "Include a Title, Introduction, Key Findings (structured appropriately), and Conclusion."

/-- The writer node: write final_report from the topic and all summaries. -/
def writer_node (llm : String → String) (state : AgentState) : AgentState :=
  { state with final_report := llm (writer_prompt state.topic state.summaries) }

/-- The loop controller: continue while the cursor is still inside the plan. -/
def manager_logic (state : AgentState) : String :=
  if state.current_query_index < state.plan.length then "continue" else "finish"

/-- External world for one whole run: the planner model response, one research
environment per researcher invocation, and the writer model. -/
structure WorkflowEnv where
  plannerOutput : String
  research : Nat → ResearchEnv
  writerLlm : String → String

/-- Outcome of the researcher self-loop: out is exhausted fuel (a model artifact
that research_loop_done shows cannot occur with adequate fuel), failed is a raised
exception inside a researcher invocation, done carries the trace of states observed
after each researcher invocation. -/
inductive LoopResult where
  | out : LoopResult
  | failed : LoopResult
  | done : List AgentState → LoopResult
deriving DecidableEq

/-- The researcher self-loop of the compiled graph: run the researcher, then follow
manager_logic, looping back to the researcher on continue and exiting on finish.
The k argument numbers the invocations so each can see its own environment. -/
def research_loop (env : WorkflowEnv) : Nat → Nat → AgentState → LoopResult
  | _, 0, _ => LoopResult.out
  | k, fuel + 1, state =>
    match research_node (env.research k) state with
    | none => LoopResult.failed
    | some s2 =>
      if manager_logic s2 = "continue" then
        match research_loop env (k + 1) fuel s2 with
        | LoopResult.done rest => LoopResult.done (s2 :: rest)
        | r => r
      else LoopResult.done [s2]

/-- The initial channel values of one run on the given topic. -/
def initial_state (topic : String) : AgentState :=
  { topic := topic, plan := [], current_query_index := 0,
    summaries := [], final_report := "" }

/-- One whole run of the compiled graph: the planner, then the researcher loop
entered unconditionally, then the writer on the last researcher state; none models
a run aborted by a raised exception. The fuel handed to the loop, one more than the
plan length, suffices for every reachable iteration count. -/
def run_workflow (env : WorkflowEnv) (topic : String) : Option AgentState :=
  match research_loop env 0 ((parse_plan env.plannerOutput).length + 1)
      (planner_node env.plannerOutput (initial_state topic)) with
  | LoopResult.done trace =>
    some (writer_node env.writerLlm
      (trace.getLastD (planner_node env.plannerOutput (initial_state topic))))
  | _ => none

/-- The summaries the researcher produces for the given queries in order, the k-th
invocation drawing its environment from env.research k. -/
def summaries_from (env : WorkflowEnv) : Nat → List String → List String
  | _, [] => []
  | k, q :: rest =>
    research_summary (env.research k) q :: summaries_from env (k + 1) rest

/-- The state reached after m further researcher invocations from the given state,
the first invocation numbered k. -/
def state_after (env : WorkflowEnv) (k : Nat) (s : AgentState) (m : Nat) : AgentState :=
  { s with
    current_query_index := s.current_query_index + m,
    summaries := s.summaries ++
      summaries_from env k ((s.plan.drop s.current_query_index).take m) }

/-- A small state used to instantiate the theorems on concrete inputs. -/
def sample_state : AgentState :=
  { topic := "t", plan := ["q1", "q2"], current_query_index := 0,
    summaries := [], final_report := "" }

/-- A state that already holds a summary, as left behind by an earlier run. -/
def held_state : AgentState :=
  { topic := "t", plan := ["old"], current_query_index := 5,
    summaries := ["kept"], final_report := "" }

/-- A research environment in which search, fetch, extract and the model all
succeed, with one search result. -/
def env_ok : ResearchEnv :=
  { search := fun _ _ => some [{ href := "http://a", title := "A" }],
    fetch := fun _ => some ("page"),
    extract := fun _ => some ("hello"),
    llm := fun _ => "SUM" }

/-- A research environment in which every external call raises. -/
def env_dead : ResearchEnv :=
  { search := fun _ _ => none,
    fetch := fun _ => none,
    extract := fun _ => none,
    llm := fun _ => "SUM" }

/-- A workflow environment with a two-line plan and healthy research calls. -/
def wf_env_ok : WorkflowEnv :=
  { plannerOutput := "alpha\nbeta",
    research := fun _ => env_ok,
    writerLlm := fun _ => "REPORT" }

/-- A workflow environment with a one-line plan whose research calls all fail. -/
def wf_env_dead : WorkflowEnv :=
  { plannerOutput := "alpha",
    research := fun _ => env_dead,
    writerLlm := fun _ => "REPORT" }

/-- A workflow environment whose planner response has no non-blank line. -/
def wf_env_empty : WorkflowEnv :=
  { plannerOutput := "",
    research := fun _ => env_ok,
    writerLlm := fun _ => "REPORT" }

/-- The state after the first researcher invocation of the wf_env_ok run. -/
def c1_state1 : AgentState :=
  { topic := "topic", plan := ["alpha", "beta"], current_query_index := 1,
    summaries := ["SUM"], final_report := "" }

/-- The state after the second researcher invocation of the wf_env_ok run. -/
def c1_state2 : AgentState :=
  { topic := "topic", plan := ["alpha", "beta"], current_query_index := 2,
    summaries := ["SUM", "SUM"], final_report := "" }

/-- The researcher trace of the wf_env_ok run. -/
def c1_trace : List AgentState := [c1_state1, c1_state2]

/-- The researcher result on sample_state in env_ok, used as a concrete witness. -/
def c9_state2 : AgentState :=
  { topic := "t", plan := ["q1", "q2"], current_query_index := 1,
    summaries := ["SUM"], final_report := "" }

/-- Lookup of an in-bounds index as a getD with default value. -/
theorem lookup_getD (l : List String) (n : Nat) (h : n < l.length) :
    l[n]? = some (l.getD n ("")) := by
  induction l generalizing n with
  | nil => simp at h
  | cons a t ih =>
    cases n with
    | zero => simp
    | succ m => simpa using ih m (by simpa using h)

/-- Dropping to an in-bounds index exposes that element as the head. -/
theorem drop_cons_getD (l : List String) (n : Nat) (h : n < l.length) :
    l.drop n = l.getD n ("") :: l.drop (n + 1) := by
  induction l generalizing n with
  | nil => simp at h
  | cons a t ih =>
    cases n with
    | zero => simp
    | succ m => simpa using ih m (by simpa using h)

/-- The researcher node fails exactly when plan[current_query_index] is out of
bounds. -/
theorem research_node_none_iff (renv : ResearchEnv) (s : AgentState) :
    research_node renv s = none ↔ s.plan[s.current_query_index]? = none := by
  unfold research_node
  split <;> simp_all

/-- The researcher node on an in-bounds cursor: one summary appended, cursor
advanced by one. -/
theorem research_node_of_lt (renv : ResearchEnv) (s : AgentState)
    (h : s.current_query_index < s.plan.length) :
    research_node renv s = some { s with
      summaries := s.summaries ++
        [research_summary renv (s.plan.getD s.current_query_index (""))],
      current_query_index := s.current_query_index + 1 } := by
  unfold research_node
  rw [lookup_getD _ _ h]

@[simp] theorem state_after_topic (env : WorkflowEnv) (k : Nat) (s : AgentState)
    (m : Nat) : (state_after env k s m).topic = s.topic := rfl

@[simp] theorem state_after_plan (env : WorkflowEnv) (k : Nat) (s : AgentState)
    (m : Nat) : (state_after env k s m).plan = s.plan := rfl

@[simp] theorem state_after_final (env : WorkflowEnv) (k : Nat) (s : AgentState)
    (m : Nat) : (state_after env k s m).final_report = s.final_report := rfl

@[simp] theorem state_after_cursor (env : WorkflowEnv) (k : Nat) (s : AgentState)
    (m : Nat) :
    (state_after env k s m).current_query_index = s.current_query_index + m := rfl

theorem state_after_summaries (env : WorkflowEnv) (k : Nat) (s : AgentState)
    (m : Nat) :
    (state_after env k s m).summaries = s.summaries ++
      summaries_from env k ((s.plan.drop s.current_query_index).take m) := rfl

@[simp] theorem planner_node_topic (content : String) (s : AgentState) :
    (planner_node content s).topic = s.topic := rfl

@[simp] theorem planner_node_plan (content : String) (s : AgentState) :
    (planner_node content s).plan = parse_plan content := rfl

@[simp] theorem planner_node_cursor (content : String) (s : AgentState) :
    (planner_node content s).current_query_index = 0 := rfl

@[simp] theorem planner_node_summaries (content : String) (s : AgentState) :
    (planner_node content s).summaries = s.summaries := by
  simp [planner_node]

@[simp] theorem planner_node_final (content : String) (s : AgentState) :
    (planner_node content s).final_report = s.final_report := rfl

@[simp] theorem initial_state_summaries (topic : String) :
    (initial_state topic).summaries = [] := rfl

@[simp] theorem writer_node_summaries (llm : String → String) (s : AgentState) :
    (writer_node llm s).summaries = s.summaries := rfl

/-- One in-bounds researcher invocation lands on state_after with m = 1. -/
theorem state_after_one (env : WorkflowEnv) (k : Nat) (s : AgentState)
    (h : s.current_query_index < s.plan.length) :
    research_node (env.research k) s = some (state_after env k s 1) := by
  rw [research_node_of_lt _ _ h]
  unfold state_after
  rw [drop_cons_getD _ _ h]
  simp [summaries_from]

/-- Splitting one researcher invocation off the front of m + 1 invocations. -/
theorem state_after_shift (env : WorkflowEnv) (k : Nat) (s : AgentState) (m : Nat)
    (h : s.current_query_index < s.plan.length) :
    state_after env (k + 1) (state_after env k s 1) m = state_after env k s (m + 1) := by
  obtain ⟨topic, plan, c, summ, fin⟩ := s
  simp only [state_after, AgentState.mk.injEq] at h ⊢
  refine ⟨trivial, trivial, by omega, ?_, trivial⟩
  rw [drop_cons_getD _ _ h]
  simp [summaries_from, List.append_assoc]

/-- The loop controller returns continue exactly while the cursor is in bounds. -/
theorem manager_logic_continue (s : AgentState) :
    (manager_logic s = "continue") ↔ s.current_query_index < s.plan.length := by
  unfold manager_logic
  by_cases h : s.current_query_index < s.plan.length
  · simp [h]
  · simp [h]

/-- Full characterization of the researcher self-loop from an in-bounds state: with
any adequate fuel it completes, and its trace is exactly one state_after snapshot
per remaining planned query. -/
theorem research_loop_done (env : WorkflowEnv) :
    ∀ (d k fuel : Nat) (s : AgentState),
      s.plan.length - s.current_query_index = d →
      s.current_query_index < s.plan.length →
      d ≤ fuel →
      research_loop env k fuel s =
        LoopResult.done ((List.range d).map (fun j => state_after env k s (j + 1))) := by
  intro d
  induction d with
  | zero => intro k fuel s hd hlt _; omega
  | succ e ih =>
    intro k fuel s hd hlt hfuel
    obtain ⟨f, rfl⟩ : ∃ f, fuel = f + 1 := ⟨fuel - 1, by omega⟩
    simp only [research_loop, state_after_one env k s hlt]
    rcases e with _ | e2
    · rw [if_neg]
      · simp [List.range_succ]
      · rw [manager_logic_continue]
        simp only [state_after_cursor, state_after_plan]
        omega
    · rw [if_pos]
      · rw [ih (k + 1) f (state_after env k s 1) (by simp; omega) (by simp; omega)
          (by omega)]
        dsimp only
        conv_rhs => rw [List.range_succ_eq_map]
        rw [List.map_cons, List.map_map]
        congr 2
        apply List.map_congr_left
        intro j hj
        simp only [Function.comp]
        exact state_after_shift env k s (j + 1) hlt
      · rw [manager_logic_continue]
        simp only [state_after_cursor, state_after_plan]
        omega

/-- The last element of a trace of d snapshots is the d-th snapshot. -/
theorem getLastD_range_map {α : Type} (f : Nat → α) (d : Nat) (a : α) (h : 0 < d) :
    ((List.range d).map f).getLastD a = f (d - 1) := by
  obtain ⟨e, rfl⟩ : ∃ e, d = e + 1 := ⟨d - 1, by omega⟩
  rw [List.range_succ, List.map_append]
  simp

/-- A run whose parsed plan is non-empty: the loop completes with the explicit
trace and the run reaches the writer on the final researcher state. -/
theorem run_workflow_done (env : WorkflowEnv) (topic : String)
    (h : parse_plan env.plannerOutput ≠ []) :
    research_loop env 0 ((parse_plan env.plannerOutput).length + 1)
        (planner_node env.plannerOutput (initial_state topic)) =
      LoopResult.done ((List.range (parse_plan env.plannerOutput).length).map
        (fun j => state_after env 0
          (planner_node env.plannerOutput (initial_state topic)) (j + 1))) ∧
    run_workflow env topic =
      some (writer_node env.writerLlm
        (state_after env 0 (planner_node env.plannerOutput (initial_state topic))
          (parse_plan env.plannerOutput).length)) := by
  have hlen : 0 < (parse_plan env.plannerOutput).length := List.length_pos.mpr h
  have hloop := research_loop_done env (parse_plan env.plannerOutput).length 0
    ((parse_plan env.plannerOutput).length + 1)
    (planner_node env.plannerOutput (initial_state topic)) (by simp) (by simpa)
    (by omega)
  refine ⟨hloop, ?_⟩
  unfold run_workflow
  rw [hloop]
  dsimp only
  rw [getLastD_range_map _ _ _ hlen]
  have harith : (parse_plan env.plannerOutput).length - 1 + 1 =
      (parse_plan env.plannerOutput).length := by omega
  rw [harith]

/-- A run whose parsed plan is empty: the researcher is entered once on the
unconditional edge, its plan access is out of bounds, and the run fails. -/
theorem research_loop_empty_plan (env : WorkflowEnv) (topic : String)
    (hp : parse_plan env.plannerOutput = []) :
    research_loop env 0 ((parse_plan env.plannerOutput).length + 1)
      (planner_node env.plannerOutput (initial_state topic)) = LoopResult.failed ∧
    run_workflow env topic = none := by
  have hnone : research_node (env.research 0)
      (planner_node env.plannerOutput (initial_state topic)) = none := by
    rw [research_node_none_iff]
    simp [hp]
  have h1 : research_loop env 0 ((parse_plan env.plannerOutput).length + 1)
      (planner_node env.plannerOutput (initial_state topic)) = LoopResult.failed := by
    simp only [research_loop, hnone]
  exact ⟨h1, by simp only [run_workflow, h1]⟩

/-- The summaries of the run's final researcher state: one summary per planned
query, in plan order. -/
theorem final_summaries (env : WorkflowEnv) (topic : String) :
    (state_after env 0 (planner_node env.plannerOutput (initial_state topic))
        (parse_plan env.plannerOutput).length).summaries =
      summaries_from env 0 (parse_plan env.plannerOutput) := by
  rw [state_after_summaries]
  simp [List.take_length]

/-- summaries_from produces exactly one summary per query. -/
theorem summaries_from_length (env : WorkflowEnv) :
    ∀ (k : Nat) (qs : List String), (summaries_from env k qs).length = qs.length := by
  intro k qs
  induction qs generalizing k with
  | nil => rfl
  | cons q rest ih => simp [summaries_from, ih]

/-- The j-th summary produced by summaries_from comes from the j-th query under
the j-th environment. -/
theorem summaries_from_getD (env : WorkflowEnv) :
    ∀ (qs : List String) (k j : Nat), j < qs.length →
      (summaries_from env k qs).getD j ("") =
        research_summary (env.research (k + j)) (qs.getD j ("")) := by
  intro qs
  induction qs with
  | nil => intro k j h; simp at h
  | cons q rest ih =>
    intro k j h
    cases j with
    | zero => simp [summaries_from]
    | succ m =>
      simp only [summaries_from, List.getD_cons_succ]
      rw [ih (k + 1) m (by simpa using h)]
      have harith : k + 1 + m = k + (m + 1) := by omega
      rw [harith]

/-- Claim C1: a researcher invocation on an in-bounds cursor succeeds with the
cursor advanced by exactly 1 and exactly one summary appended, for every research
environment (so regardless of how many search and per-URL scraping sub-steps
failed); and in every run of the workflow, every state observed after a researcher
invocation satisfies len(summaries) == cursor. -/
theorem researcher_monotonic_progress (renv : ResearchEnv) (s : AgentState)
    (h : s.current_query_index < s.plan.length)
    (env : WorkflowEnv) (topic : String) (trace : List AgentState)
    (htr : research_loop env 0 ((parse_plan env.plannerOutput).length + 1)
        (planner_node env.plannerOutput (initial_state topic)) =
      LoopResult.done trace) :
    (∃ s2, research_node renv s = some s2 ∧
      s2.current_query_index = s.current_query_index + 1 ∧
      s2.summaries.length = s.summaries.length + 1) ∧
    (∀ t ∈ trace, t.summaries.length = t.current_query_index) := by
  constructor
  · exact ⟨_, research_node_of_lt renv s h, rfl, by simp⟩
  · intro t ht
    by_cases hp : parse_plan env.plannerOutput = []
    · have := (research_loop_empty_plan env topic hp).1
      rw [this] at htr
      cases htr
    · have hloop := (run_workflow_done env topic hp).1
      rw [hloop] at htr
      injection htr with htr2
      rw [← htr2] at ht
      obtain ⟨j, hj, rfl⟩ := List.mem_map.mp ht
      have hjlen : j < (parse_plan env.plannerOutput).length := List.mem_range.mp hj
      rw [state_after_summaries, state_after_cursor]
      simp [summaries_from_length, List.length_take]
      omega

/-- Witness for researcher_monotonic_progress on a concrete state, environment and
run trace. -/
theorem researcher_monotonic_progress_witness :
    (∃ s2, research_node env_ok sample_state = some s2 ∧
      s2.current_query_index = sample_state.current_query_index + 1 ∧
      s2.summaries.length = sample_state.summaries.length + 1) ∧
    (∀ t ∈ c1_trace, t.summaries.length = t.current_query_index) :=
  researcher_monotonic_progress env_ok sample_state (by decide) wf_env_ok ("topic")
    c1_trace (by decide)

/-- Counterexample to claim C2 as stated: the planner can produce a finite plan of
length 0, and on that plan the researcher self-loop does not run 0 times and exit
to the writer; the researcher is entered once by the unconditional edge, raises on
the out-of-bounds plan access, and the run never reaches the writer. -/
theorem empty_plan_never_reaches_writer :
    parse_plan wf_env_empty.plannerOutput = [] ∧
    research_loop wf_env_empty 0 ((parse_plan wf_env_empty.plannerOutput).length + 1)
      (planner_node wf_env_empty.plannerOutput (initial_state ("t"))) =
        LoopResult.failed ∧
    run_workflow wf_env_empty ("t") = none :=
  ⟨by decide, by decide, by decide⟩

/-- Claim C2 (amended): for every run whose parsed plan is non-empty, the
researcher self-loop completes with exactly len(plan) researcher invocations and
control then exits to the writer node, which produces the run's final state. A run
with an empty plan instead fails inside the first researcher invocation (see
empty_plan_never_reaches_writer). -/
theorem loop_runs_plan_length_times (env : WorkflowEnv) (topic : String)
    (h : parse_plan env.plannerOutput ≠ []) :
    ∃ trace, research_loop env 0 ((parse_plan env.plannerOutput).length + 1)
        (planner_node env.plannerOutput (initial_state topic)) =
      LoopResult.done trace ∧
      trace.length = (parse_plan env.plannerOutput).length ∧
      run_workflow env topic =
        some (writer_node env.writerLlm (trace.getLastD
          (planner_node env.plannerOutput (initial_state topic)))) := by
  obtain ⟨hloop, hrun⟩ := run_workflow_done env topic h
  have hlen : 0 < (parse_plan env.plannerOutput).length := List.length_pos.mpr h
  refine ⟨_, hloop, by simp, ?_⟩
  rw [hrun, getLastD_range_map _ _ _ hlen]
  have harith : (parse_plan env.plannerOutput).length - 1 + 1 =
      (parse_plan env.plannerOutput).length := by omega
  rw [harith]

/-- Witness for loop_runs_plan_length_times on a concrete two-query run. -/
theorem loop_runs_plan_length_times_witness :
    ∃ trace, research_loop wf_env_ok 0 ((parse_plan wf_env_ok.plannerOutput).length + 1)
        (planner_node wf_env_ok.plannerOutput (initial_state ("topic"))) =
      LoopResult.done trace ∧
      trace.length = (parse_plan wf_env_ok.plannerOutput).length ∧
      run_workflow wf_env_ok ("topic") =
        some (writer_node wf_env_ok.writerLlm (trace.getLastD
          (planner_node wf_env_ok.plannerOutput (initial_state ("topic"))))) :=
  loop_runs_plan_length_times wf_env_ok ("topic") (by decide)

/-- Counterexample to claim C3 as stated: on a valid non-empty topic, a planner
model response with no non-blank line parses to an empty plan, violating
1 <= len(plan). -/
theorem blank_output_gives_empty_plan :
    (planner_node ("") (initial_state ("quantum computing"))).plan = [] ∧
    ("quantum computing" : String) ≠ "" :=
  ⟨by decide, by decide⟩

/-- Claim C3 (amended): the plan always satisfies len(plan) <= 3, and it is empty
exactly when the planner model response contains no non-blank line; non-emptiness
therefore depends on the model response, not on the topic being valid. -/
theorem plan_short_and_empty_iff (content : String) (s : AgentState) :
    (planner_node content s).plan.length ≤ 3 ∧
    ((planner_node content s).plan = [] ↔
      ∀ line ∈ py_split_nl (py_strip content), py_strip line = "") := by
  constructor
  · simp only [planner_node_plan, parse_plan]
    exact List.length_take_le 3 _
  · simp only [planner_node_plan, parse_plan]
    rw [List.take_eq_nil_iff]
    simp [List.filter_eq_nil_iff]

/-- Witness for plan_short_and_empty_iff on a concrete four-line response. -/
theorem plan_short_and_empty_iff_witness :
    (planner_node ("a\nb\nc\nd") sample_state).plan.length ≤ 3 :=
  (plan_short_and_empty_iff ("a\nb\nc\nd") sample_state).1

/-- Counterexample to claim C4 as stated: re-invoking the planner on a state that
already holds summaries leaves the old summaries in place, not an empty sequence;
the summaries channel is append-reduced, so the empty delta the planner returns
appends nothing. -/
theorem planner_keeps_old_summaries :
    (planner_node ("a\nb") held_state).summaries = ["kept"] ∧
    (planner_node ("a\nb") held_state).current_query_index = 0 :=
  ⟨by decide, by decide⟩

/-- Claim C4 (amended): the planner resets the cursor to 0 and overwrites the plan,
but its summaries delta is empty and the append reducer leaves the summaries
channel exactly as it was; summaries are therefore empty after the planner only
when they were already empty, as on the fresh initial state of a run. -/
theorem planner_resets_cursor_only (content : String) (s : AgentState)
    (topic : String) :
    (planner_node content s).current_query_index = 0 ∧
    (planner_node content s).plan = parse_plan content ∧
    (planner_node content s).summaries = s.summaries ∧
    (planner_node content (initial_state topic)).summaries = [] :=
  ⟨rfl, rfl, by simp, by simp⟩

/-- Counterexample to claim C5 as stated: when a researcher invocation scrapes
nothing, the code produces the placeholder literal below, not the literal the claim
states. -/
theorem placeholder_literal_differs :
    research_summary env_dead ("alpha") =
      "No detailed information could be scraped for the query: alpha" ∧
    research_summary env_dead ("alpha") ≠ "no information found for: alpha" :=
  ⟨by decide, by decide⟩

/-- Claim C5 (amended): if a researcher invocation scrapes zero documents, the
summary recorded for that query is the deterministic placeholder produced by the
code (the text of placeholder_summary), the chat model is not invoked for
summarization, and the run still reaches the writer, with the placeholder standing
at that query index of the final summaries. -/
theorem zero_scrape_placeholder (env : WorkflowEnv) (topic : String) (k : Nat)
    (hk : k < (parse_plan env.plannerOutput).length)
    (hzero : scraped_texts (env.research k)
        ((parse_plan env.plannerOutput).getD k ("")) = []) :
    research_summary (env.research k) ((parse_plan env.plannerOutput).getD k ("")) =
      placeholder_summary ((parse_plan env.plannerOutput).getD k ("")) ∧
    llm_called (env.research k) ((parse_plan env.plannerOutput).getD k ("")) = false ∧
    ∃ final, run_workflow env topic = some final ∧
      final.summaries.getD k ("") =
        placeholder_summary ((parse_plan env.plannerOutput).getD k ("")) := by
  have hcomb : combined_text (env.research k)
      ((parse_plan env.plannerOutput).getD k ("")) = "" := by
    rw [combined_text, hzero]
    rfl
  have hsum : research_summary (env.research k)
      ((parse_plan env.plannerOutput).getD k ("")) =
        placeholder_summary ((parse_plan env.plannerOutput).getD k ("")) := by
    unfold research_summary research_summary_call
    rw [if_neg (by rw [hcomb]; simp)]
  have hcall : llm_called (env.research k)
      ((parse_plan env.plannerOutput).getD k ("")) = false := by
    unfold llm_called research_summary_call
    rw [if_neg (by rw [hcomb]; simp)]
  have hne : parse_plan env.plannerOutput ≠ [] := by
    intro he
    rw [he] at hk
    simp at hk
  obtain ⟨hloop, hrun⟩ := run_workflow_done env topic hne
  refine ⟨hsum, hcall, _, hrun, ?_⟩
  rw [writer_node_summaries, final_summaries]
  rw [summaries_from_getD env (parse_plan env.plannerOutput) 0 k hk]
  simp only [Nat.zero_add]
  exact hsum

/-- Witness for zero_scrape_placeholder on a concrete run whose research calls all
fail. -/
theorem zero_scrape_placeholder_witness :
    research_summary (wf_env_dead.research 0)
        ((parse_plan wf_env_dead.plannerOutput).getD 0 ("")) =
      placeholder_summary ((parse_plan wf_env_dead.plannerOutput).getD 0 ("")) ∧
    llm_called (wf_env_dead.research 0)
        ((parse_plan wf_env_dead.plannerOutput).getD 0 ("")) = false ∧
    ∃ final, run_workflow wf_env_dead ("t") = some final ∧
      final.summaries.getD 0 ("") =
        placeholder_summary ((parse_plan wf_env_dead.plannerOutput).getD 0 ("")) :=
  zero_scrape_placeholder wf_env_dead ("t") 0 (by decide) (by decide)

/-- Claim C6: per-item failure tolerance inside one researcher invocation: with the
cursor in bounds the node succeeds for every environment (no sub-step failure
aborts the query or the run); a search client failure yields zero results to
scrape; and each result whose scrape fails is skipped individually, the scraped
documents being exactly one per successfully scraped result. -/
theorem per_item_failures_skipped (renv : ResearchEnv) (s : AgentState)
    (h : s.current_query_index < s.plan.length) (q : String) :
    (research_node renv s).isSome = true ∧
    (renv.search q 3 = none → search_results renv q = []) ∧
    (scraped_texts renv q).length =
      ((search_results renv q).filter
        (fun r => (scrape_one renv r.href).isSome)).length := by
  refine ⟨?_, ?_, ?_⟩
  · rw [research_node_of_lt renv s h]
    rfl
  · intro hs
    simp [search_results, hs]
  · rw [scraped_texts]
    generalize search_results renv q = l
    induction l with
    | nil => rfl
    | cons r rest ih =>
      cases hro : scrape_one renv r.href <;>
        simp [List.filterMap_cons, List.filter_cons, hro, ih]

/-- Witness for per_item_failures_skipped in the all-failing environment. -/
theorem per_item_failures_skipped_witness :
    (research_node env_dead sample_state).isSome = true ∧
    (env_dead.search ("q") 3 = none → search_results env_dead ("q") = []) ∧
    (scraped_texts env_dead ("q")).length =
      ((search_results env_dead ("q")).filter
        (fun r => (scrape_one env_dead r.href).isSome)).length :=
  per_item_failures_skipped env_dead sample_state (by decide) ("q")

/-- Counterexample to claim C7 as stated: the planner performs no deduplication, so
a model response that repeats one query line yields a plan with two equal entries
(already trimmed, so equal after trimming as well). -/
theorem plan_allows_duplicates :
    (planner_node ("dup\ndup") sample_state).plan = ["dup", "dup"] ∧
    ¬ (planner_node ("dup\ndup") sample_state).plan.Nodup :=
  ⟨by decide, by decide⟩

/-- Claim C7 (amended): the plan is obtained by parsing one query per model output
line, discarding blank lines and truncating to the first 3; every entry is the
non-empty trimmed form of some output line, but duplicate entries are not
removed. -/
theorem plan_entries_nonblank_lines (content : String) (s : AgentState) :
    (planner_node content s).plan.length ≤ 3 ∧
    ∀ q ∈ (planner_node content s).plan, q ≠ "" ∧
      ∃ line ∈ py_split_nl (py_strip content), q = py_strip line := by
  constructor
  · simp only [planner_node_plan, parse_plan]
    exact List.length_take_le 3 _
  · intro q hq
    have hq2 : q ∈ ((py_split_nl (py_strip content)).filter
        (fun line => py_strip line ≠ "")).map py_strip := by
      refine List.take_subset 3 _ ?_
      simpa only [planner_node_plan, parse_plan] using hq
    obtain ⟨line, hline, rfl⟩ := List.mem_map.mp hq2
    obtain ⟨hmem, hp⟩ := List.mem_filter.mp hline
    exact ⟨by simpa using hp, line, hmem, rfl⟩

/-- Witness for plan_entries_nonblank_lines on a concrete two-line response. -/
theorem plan_entries_nonblank_lines_witness :
    ∀ q ∈ (planner_node ("a\nb") sample_state).plan, q ≠ "" ∧
      ∃ line ∈ py_split_nl (py_strip ("a\nb")), q = py_strip line :=
  (plan_entries_nonblank_lines ("a\nb") sample_state).2

/-- Claim C8: every document entering the summarization input is the extracted text
of one successfully scraped search result, truncated to at most 8000 characters and
prefixed with its source URL; the summarization input is the concatenation of
exactly these documents. -/
theorem scraped_docs_bounded (renv : ResearchEnv) (q doc : String)
    (h : doc ∈ scraped_texts renv q) :
    (∃ r ∈ search_results renv q, ∃ text, scrape_one renv r.href = some text ∧
      doc = "SOURCE: " ++ r.href ++ "\nCONTENT:\n" ++ py_take text 8000 ∧
      (py_take text 8000).length ≤ 8000) ∧
    combined_text renv q = py_join ("\n\n") (scraped_texts renv q) := by
  refine ⟨?_, rfl⟩
  obtain ⟨r, hr, hmap⟩ := List.mem_filterMap.mp h
  obtain ⟨text, htext, rfl⟩ := Option.map_eq_some'.mp hmap
  refine ⟨r, hr, text, htext, rfl, ?_⟩
  show (text.data.take 8000).length ≤ 8000
  exact List.length_take_le 8000 text.data

/-- Witness for scraped_docs_bounded on the concrete document produced by
env_ok. -/
theorem scraped_docs_bounded_witness :
    (∃ r ∈ search_results env_ok ("q"), ∃ text,
      scrape_one env_ok r.href = some text ∧
      ("SOURCE: http://a\nCONTENT:\nhello" : String) =
        "SOURCE: " ++ r.href ++ "\nCONTENT:\n" ++ py_take text 8000 ∧
      (py_take text 8000).length ≤ 8000) ∧
    combined_text env_ok ("q") = py_join ("\n\n") (scraped_texts env_ok ("q")) :=
  scraped_docs_bounded env_ok ("q") ("SOURCE: http://a\nCONTENT:\nhello") (by decide)

/-- Claim C9: frame property of the three nodes: the planner changes only the plan,
cursor and summaries channels (topic and final_report unchanged), the researcher
changes only the summaries append and the cursor increment (topic, plan and
final_report unchanged), the writer changes only final_report; in particular no
node ever modifies topic. -/
theorem nodes_write_only_owned_fields (content : String) (renv : ResearchEnv)
    (wllm : String → String) (s s2 : AgentState)
    (h : research_node renv s = some s2) :
    (planner_node content s).topic = s.topic ∧
    (planner_node content s).final_report = s.final_report ∧
    s2.topic = s.topic ∧ s2.plan = s.plan ∧ s2.final_report = s.final_report ∧
    (writer_node wllm s).topic = s.topic ∧
    (writer_node wllm s).plan = s.plan ∧
    (writer_node wllm s).current_query_index = s.current_query_index ∧
    (writer_node wllm s).summaries = s.summaries := by
  have hs2 : s2.topic = s.topic ∧ s2.plan = s.plan ∧
      s2.final_report = s.final_report := by
    unfold research_node at h
    split at h
    · cases h
    · injection h with h2
      rw [← h2]
      exact ⟨rfl, rfl, rfl⟩
  exact ⟨rfl, rfl, hs2.1, hs2.2.1, hs2.2.2, rfl, rfl, rfl, rfl⟩

/-- Witness for nodes_write_only_owned_fields on a concrete researcher step. -/
theorem nodes_write_only_owned_fields_witness :
    (planner_node ("x") sample_state).topic = sample_state.topic ∧
    (planner_node ("x") sample_state).final_report = sample_state.final_report ∧
    c9_state2.topic = sample_state.topic ∧ c9_state2.plan = sample_state.plan ∧
    c9_state2.final_report = sample_state.final_report ∧
    (writer_node (fun _ => "R") sample_state).topic = sample_state.topic ∧
    (writer_node (fun _ => "R") sample_state).plan = sample_state.plan ∧
    (writer_node (fun _ => "R") sample_state).current_query_index =
      sample_state.current_query_index ∧
    (writer_node (fun _ => "R") sample_state).summaries = sample_state.summaries :=
  nodes_write_only_owned_fields ("x") env_ok (fun _ => "R") sample_state c9_state2
    (by decide)

/-- Claim C10: a researcher invocation fails exactly when plan[cursor] is out of
bounds; in every run whose parsed plan is non-empty, the researcher loop completes
without any failed access (every traced state keeps its cursor at most the plan
length); and with an empty plan the researcher node is still entered once through
the unconditional planner-to-researcher edge, its single access is out of bounds,
and the run fails — so the non-empty-plan precondition is necessary. -/
theorem plan_indexing_safety (env : WorkflowEnv) (topic : String) :
    (∀ (renv : ResearchEnv) (s : AgentState),
      research_node renv s = none ↔ s.plan[s.current_query_index]? = none) ∧
    (parse_plan env.plannerOutput ≠ [] →
      ∃ trace, research_loop env 0 ((parse_plan env.plannerOutput).length + 1)
          (planner_node env.plannerOutput (initial_state topic)) =
        LoopResult.done trace ∧
        ∀ t ∈ trace, t.current_query_index ≤ t.plan.length) ∧
    (parse_plan env.plannerOutput = [] →
      research_loop env 0 ((parse_plan env.plannerOutput).length + 1)
        (planner_node env.plannerOutput (initial_state topic)) =
          LoopResult.failed ∧
      run_workflow env topic = none) := by
  refine ⟨research_node_none_iff, ?_, research_loop_empty_plan env topic⟩
  intro h
  refine ⟨_, (run_workflow_done env topic h).1, ?_⟩
  intro t ht
  obtain ⟨j, hj, rfl⟩ := List.mem_map.mp ht
  have hjlen : j < (parse_plan env.plannerOutput).length := List.mem_range.mp hj
  rw [state_after_cursor, state_after_plan]
  simp
  omega

/-- Witness for plan_indexing_safety: a healthy two-query run completes in bounds,
and the empty-plan run fails. -/
theorem plan_indexing_safety_witness :
    (∃ trace, research_loop wf_env_ok 0
        ((parse_plan wf_env_ok.plannerOutput).length + 1)
        (planner_node wf_env_ok.plannerOutput (initial_state ("topic"))) =
      LoopResult.done trace ∧
      ∀ t ∈ trace, t.current_query_index ≤ t.plan.length) ∧
    run_workflow wf_env_empty ("t") = none :=
  ⟨(plan_indexing_safety wf_env_ok ("topic")).2.1 (by decide),
   ((plan_indexing_safety wf_env_empty ("t")).2.2 (by decide)).2⟩

end ResearchAgent
